import Mathlib

/-!
Shallow embedding of the trim-range / bounded-loop playback core of the
VideoTrimmerApp repository, together with proofs of its specified
properties.

Times are modelled as exact rationals (`ℚ`): every time-domain operation of
the source (`Math.min`, `Math.max`, `+`, `-`, comparisons, and the slider's
pixel/time conversions) is exact real arithmetic, which `ℚ` represents
faithfully.  The one place where JavaScript's IEEE-754 special values are
observable — division by a zero duration in the timeline slider — is
modelled explicitly with the `JsNum` type below.
-/

namespace VideoTrimmerApp

/-! ### JavaScript numeric values with NaN / Infinity

Used only where the source can actually produce a non-finite number:
the timeline slider's `(time / duration) * SLIDER_WIDTH` computations. -/

/-- A JavaScript number that may be `NaN` or an infinity; finite values are
exact rationals. -/
inductive JsNum where
  | nan : JsNum
  | posInf : JsNum
  | negInf : JsNum
  | num : ℚ → JsNum
deriving DecidableEq, Repr

/-- JavaScript division `a / b` on finite operands: division by zero yields
`NaN` (for `0 / 0`) or a signed infinity. -/
def jsDiv (a b : ℚ) : JsNum :=
  if b = 0 then
    if a = 0 then JsNum.nan
    else if 0 < a then JsNum.posInf
    else JsNum.negInf
  else JsNum.num (a / b)

/-- JavaScript multiplication of a (possibly non-finite) number by a finite
constant: `NaN` propagates, `Infinity * 0 = NaN`, otherwise signs multiply. -/
def jsMul (x : JsNum) (c : ℚ) : JsNum :=
  match x with
  | JsNum.nan => JsNum.nan
  | JsNum.posInf => if c = 0 then JsNum.nan else if 0 < c then JsNum.posInf else JsNum.negInf
  | JsNum.negInf => if c = 0 then JsNum.nan else if 0 < c then JsNum.negInf else JsNum.posInf
  | JsNum.num q => JsNum.num (q * c)

/-! ### CustomTimelineSlider (src/unnamed/part_001)

`sliderWidth` abstracts the device-dependent constant
`SLIDER_WIDTH = screenWidth - 40`. -/

/-- Pixel position of a handle or of the current-time marker on the track:
`(time / duration) * SLIDER_WIDTH` (part_001 lines 28-30), in JavaScript
arithmetic so that a degenerate `duration` is observable. -/
def sliderHandlePosition (sliderWidth time duration : ℚ) : JsNum :=
  jsMul (jsDiv time duration) sliderWidth

/-- The slider's gesture recognizers accept every touch:
`onStartShouldSetPanResponder: () => true` (part_001 line 41), with no
dependence on `duration` or any disabled flag. -/
def onStartShouldSetPanResponder : Bool := true

/-- `onMoveShouldSetPanResponder: () => true` (part_001 line 42); dragging is
likewise never disabled. -/
def onMoveShouldSetPanResponder : Bool := true

/-- Time-to-pixel conversion used for handle layout, in exact arithmetic
(meaningful when `duration ≠ 0`): `(time / duration) * SLIDER_WIDTH`
(part_001 lines 28-30). -/
def timelinePosition (sliderWidth duration time : ℚ) : ℚ :=
  time / duration * sliderWidth

/-- Pixel-to-time conversion used on drag moves:
`(clampedPosition / SLIDER_WIDTH) * duration` (part_001 lines 54 and 58). -/
def panPositionToTime (sliderWidth duration position : ℚ) : ℚ :=
  position / sliderWidth * duration

/-! ### Video utility functions (src/unnamed/part_000) -/

/-- `validateTimeRange` (part_000 lines 48-50):
`startTime < endTime && startTime >= 0 && endTime > 0`. -/
def validateTimeRange (startTime endTime : ℚ) : Bool :=
  decide (startTime < endTime) && decide (0 ≤ startTime) && decide (0 < endTime)

/-- Result record of `getSuggestedTrimPoints`. -/
structure TrimPoints where
  startTime : ℚ
  endTime : ℚ
  duration : ℚ
deriving DecidableEq, Repr

/-- `getSuggestedTrimPoints` (part_000 lines 104-113): suggested range is
`[0, min(videoDuration, 30000)]`. -/
def getSuggestedTrimPoints (videoDuration : ℚ) : TrimPoints :=
  let maxTrimDuration : ℚ := 30000
  let suggestedDuration : ℚ := min videoDuration maxTrimDuration
  { startTime := 0, endTime := suggestedDuration, duration := suggestedDuration }

/-! ### VideoTrimmerScreen (src/unnamed/part_004) -/

/-- The two slider-driven pieces of the trim screen's state. -/
structure TrimState where
  startTime : ℚ
  endTime : ℚ
deriving DecidableEq, Repr

/-- Initial trim-screen state (part_004 lines 23-24 and 40-47): `startTime`
is `0`; `endTime` is set to `Math.min(videoDuration, 30000)` when
`videoDuration` is truthy and stays `0` otherwise. -/
def trimmerInitialState (videoDuration : ℚ) : TrimState :=
  if videoDuration = 0 then { startTime := 0, endTime := 0 }
  else { startTime := 0, endTime := min videoDuration 30000 }

/-- `handleStartTimeChange` (part_004 lines 105-113):
`clampedStartTime = Math.max(0, Math.min(endTime - 1000, newStartTime))`. -/
def handleStartTimeChange (s : TrimState) (newStartTime : ℚ) : TrimState :=
  { s with startTime := max 0 (min (s.endTime - 1000) newStartTime) }

/-- `handleEndTimeChange` (part_004 lines 115-123):
`clampedEndTime = Math.max(startTime + 1000, Math.min(videoDuration, newEndTime))`. -/
def handleEndTimeChange (videoDuration : ℚ) (s : TrimState) (newEndTime : ℚ) : TrimState :=
  { s with endTime := max (s.startTime + 1000) (min videoDuration newEndTime) }

/-- One requested change to either handle (the raw value the slider passes to
the corresponding setter; clamping happens inside the setter). -/
inductive TrimUpdate where
  | setStart : ℚ → TrimUpdate
  | setEnd : ℚ → TrimUpdate
deriving DecidableEq, Repr

/-- Apply a single requested handle change through the screen's clamped
setter. -/
def applyTrimUpdate (videoDuration : ℚ) (s : TrimState) : TrimUpdate → TrimState
  | TrimUpdate.setStart t => handleStartTimeChange s t
  | TrimUpdate.setEnd t => handleEndTimeChange videoDuration s t

/-- Apply a whole drag sequence through the clamped setters, in order. -/
def applyTrimUpdates (videoDuration : ℚ) (s : TrimState) (ups : List TrimUpdate) : TrimState :=
  ups.foldl (applyTrimUpdate videoDuration) s

/-- Outcome of the trim-to-playback transition: either a user-facing alert
message or a navigation to the player carrying the trim parameters. -/
inductive ProceedOutcome where
  | alert : String → ProceedOutcome
  | navigate : ℚ → ℚ → ℚ → ℚ → ProceedOutcome
deriving DecidableEq, Repr

/-- Whether the transition failed with a user-facing message. -/
def ProceedOutcome.failed : ProceedOutcome → Bool
  | ProceedOutcome.alert _ => true
  | ProceedOutcome.navigate _ _ _ _ => false

/-- `handleProceedToPlayer` (part_004 lines 137-168): rejects a missing
`videoUri`, then `startTime >= endTime`, then a trimmed duration under
1000 ms; otherwise navigates to the player with
`trimmedDuration = endTime - startTime`. -/
def handleProceedToPlayer (hasVideoUri : Bool) (startTime endTime videoDuration : ℚ) :
    ProceedOutcome :=
  if hasVideoUri = false then ProceedOutcome.alert "No video to trim"
  else if endTime ≤ startTime then ProceedOutcome.alert "Start time must be less than end time"
  else if endTime - startTime < 1000 then
    ProceedOutcome.alert "Trimmed duration must be at least 1 second"
  else ProceedOutcome.navigate startTime endTime videoDuration (endTime - startTime)

/-! ### VideoPlayerScreen (src/unnamed/part_005) -/

/-- The shape of a player status notification:
`{ isLoaded, positionMillis, isPlaying }`. -/
structure VideoStatus where
  isLoaded : Bool
  positionMillis : ℚ
  isPlaying : Bool
deriving DecidableEq, Repr

/-- A command issued to the external player handle. -/
inductive PlayerCmd where
  | pauseAsync : PlayerCmd
  | playAsync : PlayerCmd
  | setPositionAsync : ℚ → PlayerCmd
deriving DecidableEq, Repr

/-- The trim range the playback screen was opened with (route parameters;
read-only for the whole screen lifetime). -/
structure PlayerConfig where
  startTime : ℚ
  endTime : ℚ
deriving DecidableEq, Repr

/-- The playback screen's local state (part_005 lines 28-36). -/
structure PlayerState where
  currentTime : ℚ
  isPlaying : Bool
  isLooping : Bool
  videoLoaded : Bool
  isInitialized : Bool
  initializationAttempted : Bool
  videoStatus : Option VideoStatus
deriving DecidableEq, Repr

/-- State of the playback screen right after mount (part_005 lines 28-36 and
49-53): nothing loaded or initialized, looping on, position at `startTime`. -/
def initialPlayerState (cfg : PlayerConfig) : PlayerState :=
  { currentTime := cfg.startTime
    isPlaying := false
    isLooping := true
    videoLoaded := false
    isInitialized := false
    initializationAttempted := false
    videoStatus := none }

/-- `initializeVideo` (part_005 lines 83-119), success path: guarded by the
one-shot flag, it pauses, seeks to `startTime` only when `startTime > 0`,
and marks the state initialized. -/
def initializeVideo (cfg : PlayerConfig) (s : PlayerState) : PlayerState × List PlayerCmd :=
  if s.initializationAttempted = true ∨ s.isInitialized = true then (s, [])
  else
    ({ s with
        initializationAttempted := true
        currentTime := cfg.startTime
        isInitialized := true
        videoLoaded := true
        isPlaying := false },
      PlayerCmd.pauseAsync ::
        (if 0 < cfg.startTime then [PlayerCmd.setPositionAsync cfg.startTime] else []))

/-- The steady-state portion of `handleVideoStatusUpdate` (part_005 lines
166-195), executed only once `isInitialized` is true: record the reported
position and play flag, loop or stop at the end boundary, and correct a
position before the start boundary. -/
def steadyStateUpdate (cfg : PlayerConfig) (s : PlayerState) (status : VideoStatus) :
    PlayerState × List PlayerCmd :=
  let positionMs := status.positionMillis
  let s1 : PlayerState :=
    { s with
        videoStatus := some status
        currentTime := positionMs
        isPlaying := status.isPlaying }
  let afterEnd : PlayerState × List PlayerCmd :=
    if cfg.endTime ≤ positionMs ∧ status.isPlaying = true then
      if s.isLooping = true then
        ({ s1 with currentTime := cfg.startTime }, [PlayerCmd.setPositionAsync cfg.startTime])
      else
        ({ s1 with isPlaying := false }, [PlayerCmd.pauseAsync])
    else (s1, [])
  if positionMs < cfg.startTime ∧ status.isPlaying = true then
    ({ afterEnd.1 with currentTime := cfg.startTime },
      afterEnd.2 ++ [PlayerCmd.setPositionAsync cfg.startTime])
  else afterEnd

/-- `handleVideoStatusUpdate` (part_005 lines 154-196): ignore unloaded
statuses, run the one-shot initialization on the first loaded status, and
apply the steady-state rule only when initialized. -/
def handleVideoStatusUpdate (cfg : PlayerConfig) (s : PlayerState) (status : VideoStatus) :
    PlayerState × List PlayerCmd :=
  if status.isLoaded = false then (s, [])
  else if s.isInitialized = false ∧ s.initializationAttempted = false then
    initializeVideo cfg s
  else if s.isInitialized = true then steadyStateUpdate cfg s status
  else (s, [])

/-- Feed a list of status notifications through the handler in order,
collecting the list of commands issued for each notification. -/
def runStatusTrace (cfg : PlayerConfig) (s : PlayerState) :
    List VideoStatus → PlayerState × List (List PlayerCmd)
  | [] => (s, [])
  | status :: rest =>
    let step := handleVideoStatusUpdate cfg s status
    let tail := runStatusTrace cfg step.1 rest
    (tail.1, step.2 :: tail.2)

/-- Commands issued while the screen is still uninitialized: feed the trace
and keep only the command batches of calls whose pre-state has
`isInitialized = false` (exactly the initialization-sequence commands, since
the steady-state rule is gated on `isInitialized`). -/
def uninitializedPhaseCmds (cfg : PlayerConfig) (s : PlayerState) :
    List VideoStatus → List PlayerCmd
  | [] => []
  | status :: rest =>
    let step := handleVideoStatusUpdate cfg s status
    (if s.isInitialized = true then [] else step.2) ++ uninitializedPhaseCmds cfg step.1 rest

/-! ### Concrete data for the loop-correctness scenario (spec §8 item 4) -/

/-- Trim range of the loop-correctness scenario: `{start: 2000, end: 5000}`. -/
def loopTestConfig : PlayerConfig := { startTime := 2000, endTime := 5000 }

/-- Steady-state playback state for the loop-correctness scenario: looping
enabled and initialization complete. -/
def loopTestState : PlayerState :=
  { currentTime := 2000
    isPlaying := false
    isLooping := true
    videoLoaded := true
    isInitialized := true
    initializationAttempted := true
    videoStatus := none }

/-- The scenario's position notifications `1000, 3000, 5000, 5200`, each
loaded and playing. -/
def loopTestTrace : List VideoStatus :=
  [{ isLoaded := true, positionMillis := 1000, isPlaying := true },
   { isLoaded := true, positionMillis := 3000, isPlaying := true },
   { isLoaded := true, positionMillis := 5000, isPlaying := true },
   { isLoaded := true, positionMillis := 5200, isPlaying := true }]

/-! ## Helper lemmas -/

/-- Either clamped setter preserves the trim screen's basic handle invariant:
a nonnegative start handle at least 1000 ms before the end handle. -/
theorem applyTrimUpdate_gap (d : ℚ) (s : TrimState) (u : TrimUpdate)
    (h0 : 0 ≤ s.startTime) (hg : s.startTime + 1000 ≤ s.endTime) :
    0 ≤ (applyTrimUpdate d s u).startTime ∧
      (applyTrimUpdate d s u).startTime + 1000 ≤ (applyTrimUpdate d s u).endTime := by
  cases u with
  | setStart t =>
      simp only [applyTrimUpdate, handleStartTimeChange]
      constructor
      · exact le_max_left 0 _
      · have he : (0 : ℚ) ≤ s.endTime - 1000 := by linarith
        have hle : max 0 (min (s.endTime - 1000) t) ≤ s.endTime - 1000 :=
          max_le he (min_le_left _ _)
        linarith
  | setEnd t =>
      simp only [applyTrimUpdate, handleEndTimeChange]
      exact ⟨h0, le_max_left _ _⟩

/-- A whole update sequence preserves the basic handle invariant. -/
theorem applyTrimUpdates_gap (d : ℚ) (ups : List TrimUpdate) (s : TrimState)
    (h0 : 0 ≤ s.startTime) (hg : s.startTime + 1000 ≤ s.endTime) :
    0 ≤ (applyTrimUpdates d s ups).startTime ∧
      (applyTrimUpdates d s ups).startTime + 1000 ≤ (applyTrimUpdates d s ups).endTime := by
  induction ups generalizing s with
  | nil => exact ⟨h0, hg⟩
  | cons u rest ih =>
      have h := applyTrimUpdate_gap d s u h0 hg
      simpa [applyTrimUpdates] using ih (applyTrimUpdate d s u) h.1 h.2

/-- Either clamped setter preserves the full domain invariant
`0 ≤ start ∧ start + 1000 ≤ end ∧ end ≤ duration`. -/
theorem applyTrimUpdate_domain (d : ℚ) (s : TrimState) (u : TrimUpdate)
    (h0 : 0 ≤ s.startTime) (hg : s.startTime + 1000 ≤ s.endTime) (hd : s.endTime ≤ d) :
    0 ≤ (applyTrimUpdate d s u).startTime ∧
      (applyTrimUpdate d s u).startTime + 1000 ≤ (applyTrimUpdate d s u).endTime ∧
      (applyTrimUpdate d s u).endTime ≤ d := by
  have hgap := applyTrimUpdate_gap d s u h0 hg
  refine ⟨hgap.1, hgap.2, ?_⟩
  cases u with
  | setStart t =>
      simpa only [applyTrimUpdate, handleStartTimeChange] using hd
  | setEnd t =>
      simp only [applyTrimUpdate, handleEndTimeChange]
      exact max_le (by linarith) (min_le_left _ _)

/-- A whole update sequence preserves the full domain invariant. -/
theorem applyTrimUpdates_domain (d : ℚ) (ups : List TrimUpdate) (s : TrimState)
    (h0 : 0 ≤ s.startTime) (hg : s.startTime + 1000 ≤ s.endTime) (hd : s.endTime ≤ d) :
    0 ≤ (applyTrimUpdates d s ups).startTime ∧
      (applyTrimUpdates d s ups).startTime + 1000 ≤ (applyTrimUpdates d s ups).endTime ∧
      (applyTrimUpdates d s ups).endTime ≤ d := by
  induction ups generalizing s with
  | nil => exact ⟨h0, hg, hd⟩
  | cons u rest ih =>
      have h := applyTrimUpdate_domain d s u h0 hg hd
      simpa [applyTrimUpdates] using ih (applyTrimUpdate d s u) h.1 h.2.1 h.2.2

/-- The status handler never clears `isInitialized`. -/
theorem handleVideoStatusUpdate_keeps_initialized (cfg : PlayerConfig) (s : PlayerState)
    (status : VideoStatus) (h : s.isInitialized = true) :
    (handleVideoStatusUpdate cfg s status).1.isInitialized = true := by
  by_cases hl : status.isLoaded = false
  · simp [handleVideoStatusUpdate, hl, h]
  · by_cases hp : status.isPlaying = true <;>
      by_cases hE : cfg.endTime ≤ status.positionMillis <;>
      by_cases hS : status.positionMillis < cfg.startTime <;>
      by_cases hL : s.isLooping = true <;>
      simp [handleVideoStatusUpdate, steadyStateUpdate, hl, h, hp, hE, hS, hL]

/-- Once initialized, no later call contributes to the uninitialized-phase
command stream. -/
theorem uninitializedPhaseCmds_of_initialized (cfg : PlayerConfig) (sts : List VideoStatus) :
    ∀ s : PlayerState, s.isInitialized = true → uninitializedPhaseCmds cfg s sts = [] := by
  induction sts with
  | nil => intro s _; rfl
  | cons status rest ih =>
      intro s h
      have hnext := handleVideoStatusUpdate_keeps_initialized cfg s status h
      simp [uninitializedPhaseCmds, h, ih _ hnext]

/-! ## Claim theorems -/

/-- C1 (corrected): with trim range `[2000, 5000]`, looping on and
initialization complete, the playing notifications `1000, 3000, 5000, 5200`
produce the commands seek→2000 (start-boundary), none, seek→2000
(end-boundary), and — unlike the claimed "no command" — a further seek→2000
for the stale `5200` notification, which is re-corrected by the same
end-boundary rule; the locally recorded position settles at 2000 after every
boundary hit. -/
theorem loop_boundary_trace :
    (runStatusTrace loopTestConfig loopTestState loopTestTrace).2 =
        [[PlayerCmd.setPositionAsync 2000], [], [PlayerCmd.setPositionAsync 2000],
          [PlayerCmd.setPositionAsync 2000]] ∧
      (runStatusTrace loopTestConfig loopTestState (loopTestTrace.take 1)).1.currentTime = 2000 ∧
      (runStatusTrace loopTestConfig loopTestState (loopTestTrace.take 3)).1.currentTime = 2000 ∧
      (runStatusTrace loopTestConfig loopTestState loopTestTrace).1.currentTime = 2000 := by
  refine ⟨?_, ?_, ?_, ?_⟩ <;>
    norm_num [runStatusTrace, handleVideoStatusUpdate, steadyStateUpdate, loopTestConfig,
      loopTestState, loopTestTrace, List.take]

/-- C1 counterexample: the claimed command sequence ends with no command for
the `5200` notification, but the code issues one more seek→2000 there, so the
actual per-notification command lists differ from the claimed ones. -/
theorem loop_boundary_stale_counterexample :
    (runStatusTrace loopTestConfig loopTestState loopTestTrace).2.getLast? =
        some [PlayerCmd.setPositionAsync 2000] ∧
      (runStatusTrace loopTestConfig loopTestState loopTestTrace).2 ≠
        [[PlayerCmd.setPositionAsync 2000], [], [PlayerCmd.setPositionAsync 2000], []] := by
  have h : (runStatusTrace loopTestConfig loopTestState loopTestTrace).2 =
      [[PlayerCmd.setPositionAsync 2000], [], [PlayerCmd.setPositionAsync 2000],
        [PlayerCmd.setPositionAsync 2000]] := by
    norm_num [runStatusTrace, handleVideoStatusUpdate, steadyStateUpdate, loopTestConfig,
      loopTestState, loopTestTrace]
  rw [h]
  refine ⟨rfl, ?_⟩
  simp

/-- C2 (corrected): from a freshly mounted playback screen, the commands
issued while `isInitialized` is still false are exactly the one-shot
initialization batch — one `pause()`, followed by one `seekTo(startMs)` when
`startMs > 0` and by no seek when `startMs = 0` — however many duplicate
loaded notifications arrive, and the steady-state rule contributes nothing
before initialization completes. -/
theorem initialization_one_shot (cfg : PlayerConfig) (sts : List VideoStatus) :
    uninitializedPhaseCmds cfg (initialPlayerState cfg) sts =
      if sts.any (fun st => st.isLoaded) = true then
        PlayerCmd.pauseAsync ::
          (if 0 < cfg.startTime then [PlayerCmd.setPositionAsync cfg.startTime] else [])
      else [] := by
  induction sts with
  | nil => rfl
  | cons status rest ih =>
      have hunfold : uninitializedPhaseCmds cfg (initialPlayerState cfg) (status :: rest) =
          (handleVideoStatusUpdate cfg (initialPlayerState cfg) status).2 ++
            uninitializedPhaseCmds cfg
              (handleVideoStatusUpdate cfg (initialPlayerState cfg) status).1 rest := rfl
      by_cases hl : status.isLoaded = false
      · have hstep : handleVideoStatusUpdate cfg (initialPlayerState cfg) status =
            (initialPlayerState cfg, []) := by
          simp [handleVideoStatusUpdate, hl]
        have hany : ((status :: rest).any fun st => st.isLoaded) =
            (rest.any fun st => st.isLoaded) := by
          simp [hl]
        rw [hunfold, hstep, hany]
        simpa using ih
      · simp only [Bool.not_eq_false] at hl
        have hstep : handleVideoStatusUpdate cfg (initialPlayerState cfg) status =
            initializeVideo cfg (initialPlayerState cfg) := by
          simp [handleVideoStatusUpdate, initialPlayerState, hl]
        have hinit : (handleVideoStatusUpdate cfg (initialPlayerState cfg) status).1.isInitialized
            = true := by
          rw [hstep]
          simp [initializeVideo, initialPlayerState]
        have hrest := uninitializedPhaseCmds_of_initialized cfg rest _ hinit
        have hany : ((status :: rest).any fun st => st.isLoaded) = true := by
          simp [hl]
        rw [hunfold, hrest, hstep, hany]
        simp [initializeVideo, initialPlayerState]

/-- C2 counterexample: with `startMs = 0`, three duplicate loaded
notifications from a fresh screen produce only the single `pause()` — no
`seekTo(0)` is ever issued, contradicting the claimed "exactly one
`seekTo(startMs)` … including `startMs = 0`". -/
theorem initialization_zero_start_counterexample :
    uninitializedPhaseCmds { startTime := 0, endTime := 5000 }
        (initialPlayerState { startTime := 0, endTime := 5000 })
        [{ isLoaded := true, positionMillis := 0, isPlaying := false },
          { isLoaded := true, positionMillis := 0, isPlaying := false },
          { isLoaded := true, positionMillis := 0, isPlaying := false }] =
        [PlayerCmd.pauseAsync] ∧
      PlayerCmd.setPositionAsync 0 ∉ [PlayerCmd.pauseAsync] := by
  constructor
  · norm_num [uninitializedPhaseCmds, handleVideoStatusUpdate, initializeVideo,
      initialPlayerState, steadyStateUpdate]
  · simp

/-- C3 (confirmed): starting from any trim-screen state whose handles satisfy
`0 ≤ startTime` and `startTime + 1000 ≤ endTime` (every state the screen can
be in with a valid gap: `startTime` is only ever produced by the clamping
setters or initialized to `0`), every sequence of requested handle changes
applied through `handleStartTimeChange` / `handleEndTimeChange` keeps
`endTime - startTime ≥ 1000` — and since the sequence is arbitrary, the bound
holds after each individual update. -/
theorem trim_gap_invariant (d : ℚ) (s : TrimState) (ups : List TrimUpdate)
    (h0 : 0 ≤ s.startTime) (hg : s.startTime + 1000 ≤ s.endTime) :
    1000 ≤ (applyTrimUpdates d s ups).endTime - (applyTrimUpdates d s ups).startTime := by
  have h := applyTrimUpdates_gap d ups s h0 hg
  linarith [h.1, h.2]

/-- C3 witness: a concrete drag sequence from the state `[0, 5000]` with
duration 10000 keeps the 1-second gap. -/
theorem trim_gap_invariant_witness :
    1000 ≤ (applyTrimUpdates 10000 { startTime := 0, endTime := 5000 }
        [TrimUpdate.setStart 4900, TrimUpdate.setEnd 300]).endTime -
      (applyTrimUpdates 10000 { startTime := 0, endTime := 5000 }
        [TrimUpdate.setStart 4900, TrimUpdate.setEnd 300]).startTime :=
  trim_gap_invariant 10000 { startTime := 0, endTime := 5000 }
    [TrimUpdate.setStart 4900, TrimUpdate.setEnd 300] (by norm_num) (by norm_num)

/-- C4 (corrected): the domain invariant `0 ≤ startTime ∧ endTime ≤ duration`
is kept by every update sequence provided the starting state also satisfies
`startTime + 1000 ≤ endTime ≤ duration` (true of the screen's initial state
whenever `duration ≥ 1000`); without that proviso `handleEndTimeChange`
forces `endTime = startTime + 1000` even past `duration`. -/
theorem trim_domain_invariant (d : ℚ) (s : TrimState) (ups : List TrimUpdate)
    (h0 : 0 ≤ s.startTime) (hg : s.startTime + 1000 ≤ s.endTime) (hd : s.endTime ≤ d) :
    0 ≤ (applyTrimUpdates d s ups).startTime ∧ (applyTrimUpdates d s ups).endTime ≤ d := by
  have h := applyTrimUpdates_domain d ups s h0 hg hd
  exact ⟨h.1, h.2.2⟩

/-- C4 witness: a concrete sequence requesting values below `0` and above the
duration stays inside `[0, duration]`. -/
theorem trim_domain_invariant_witness :
    0 ≤ (applyTrimUpdates 10000 { startTime := 0, endTime := 5000 }
        [TrimUpdate.setStart (-50), TrimUpdate.setEnd 99999]).startTime ∧
      (applyTrimUpdates 10000 { startTime := 0, endTime := 5000 }
        [TrimUpdate.setStart (-50), TrimUpdate.setEnd 99999]).endTime ≤ 10000 :=
  trim_domain_invariant 10000 { startTime := 0, endTime := 5000 }
    [TrimUpdate.setStart (-50), TrimUpdate.setEnd 99999] (by norm_num) (by norm_num) (by norm_num)

/-- C4 counterexample: with a 500 ms video, from the screen's own initial
state `[0, 500]`, a single end-handle request of 200 is clamped up to
`startTime + 1000 = 1000`, which exceeds the 500 ms duration — the claimed
`endTime ≤ duration` fails. -/
theorem trim_domain_counterexample :
    (applyTrimUpdates 500 (trimmerInitialState 500) [TrimUpdate.setEnd 200]).endTime = 1000 ∧
      ¬ (applyTrimUpdates 500 (trimmerInitialState 500) [TrimUpdate.setEnd 200]).endTime ≤ 500 := by
  have h : applyTrimUpdates 500 (trimmerInitialState 500) [TrimUpdate.setEnd 200] =
      { startTime := 0, endTime := 1000 } := by
    norm_num [applyTrimUpdates, applyTrimUpdate, trimmerInitialState, handleEndTimeChange,
      max_def, min_def]
  rw [h]
  norm_num

/-- C5 (confirmed): with a video present, `handleProceedToPlayer` surfaces an
alert and does not navigate exactly when `startTime ≥ endTime` or the gap is
under 1000 ms; otherwise it navigates carrying
`trimmedDuration = endTime - startTime`; the 500 ms range `[5000, 5500]` is
rejected and the 1000 ms range `[5000, 6000]` accepted. -/
theorem proceed_validation (s e d : ℚ) :
    ((handleProceedToPlayer true s e d).failed = true ↔ e ≤ s ∨ e - s < 1000) ∧
      (1000 ≤ e - s →
        handleProceedToPlayer true s e d = ProceedOutcome.navigate s e d (e - s)) ∧
      (handleProceedToPlayer true 5000 5500 10000).failed = true ∧
      (handleProceedToPlayer true 5000 6000 10000).failed = false := by
  refine ⟨?_, ?_, ?_, ?_⟩
  · by_cases h2 : e ≤ s
    · simp [handleProceedToPlayer, ProceedOutcome.failed, h2]
    · by_cases h3 : e - s < 1000 <;>
        simp [handleProceedToPlayer, ProceedOutcome.failed, h2, h3]
  · intro hge
    have h2 : ¬ e ≤ s := by linarith
    have h3 : ¬ e - s < 1000 := by linarith
    simp [handleProceedToPlayer, h2, h3]
  · norm_num [handleProceedToPlayer, ProceedOutcome.failed]
  · norm_num [handleProceedToPlayer, ProceedOutcome.failed]

/-- C5 witness: the 6-second range `[2000, 8000]` navigates with
`trimmedDuration = 6000`. -/
theorem proceed_validation_witness :
    handleProceedToPlayer true 2000 8000 10000 =
      ProceedOutcome.navigate 2000 8000 10000 6000 := by
  have h := (proceed_validation 2000 8000 10000).2.1 (by norm_num)
  norm_num at h
  exact h

/-- C6 (code bug, spec §4.1 and §7): at `duration = 0` the slider computes
`(0/0) * SLIDER_WIDTH = NaN` for the handle and current-position pixel
positions of the screen's initial state, and its pan responders accept every
drag unconditionally — the widget has no disabled state at all. -/
theorem slider_degenerate_duration_bug :
    sliderHandlePosition 335 (trimmerInitialState 0).startTime 0 = JsNum.nan ∧
      sliderHandlePosition 335 (trimmerInitialState 0).endTime 0 = JsNum.nan ∧
      sliderHandlePosition 335 0 0 = JsNum.nan ∧
      onStartShouldSetPanResponder = true ∧ onMoveShouldSetPanResponder = true := by
  refine ⟨?_, ?_, ?_, rfl, rfl⟩ <;>
    simp [sliderHandlePosition, jsDiv, jsMul, trimmerInitialState]

/-- C7 (confirmed): for positive duration and any `t ∈ [0, duration]`,
converting to a pixel position and back recovers `t` exactly, hence within
the one-pixel time equivalent `duration / SLIDER_WIDTH`. -/
theorem pixel_time_roundtrip (w d t : ℚ) (hw : 0 < w) (hd : 0 < d)
    (h0 : 0 ≤ t) (ht : t ≤ d) :
    |panPositionToTime w d (timelinePosition w d t) - t| ≤ d / w := by
  have hw' : w ≠ 0 := ne_of_gt hw
  have hd' : d ≠ 0 := ne_of_gt hd
  have hrt : panPositionToTime w d (timelinePosition w d t) = t := by
    unfold panPositionToTime timelinePosition
    field_simp
    ring
  rw [hrt, sub_self, abs_zero]
  positivity

/-- C7 witness: round trip at `t = 2500` on a 10-second video with a 335 px
track stays within the one-pixel tolerance. -/
theorem pixel_time_roundtrip_witness :
    |panPositionToTime 335 10000 (timelinePosition 335 10000 2500) - 2500| ≤ 10000 / 335 :=
  pixel_time_roundtrip 335 10000 2500 (by decide) (by decide) (by decide) (by decide)

/-- C8 (confirmed): once `isInitialized` holds, the status handler is
idempotent on identical notifications — re-applying it to its own result
state with the same status yields the identical state and the identical
command batch. -/
theorem handleVideoStatusUpdate_idempotent (cfg : PlayerConfig) (s : PlayerState)
    (status : VideoStatus) (h : s.isInitialized = true) :
    handleVideoStatusUpdate cfg (handleVideoStatusUpdate cfg s status).1 status =
      handleVideoStatusUpdate cfg s status := by
  by_cases hl : status.isLoaded = false
  · simp [handleVideoStatusUpdate, hl]
  · by_cases hp : status.isPlaying = true <;>
      by_cases hE : cfg.endTime ≤ status.positionMillis <;>
      by_cases hS : status.positionMillis < cfg.startTime <;>
      by_cases hL : s.isLooping = true <;>
      simp [handleVideoStatusUpdate, steadyStateUpdate, hl, h, hp, hE, hS, hL]

/-- C8 witness: re-applying the handler with the end-boundary notification at
5000 on the loop-test state reproduces the same state and command. -/
theorem handleVideoStatusUpdate_idempotent_witness :
    handleVideoStatusUpdate loopTestConfig
        (handleVideoStatusUpdate loopTestConfig loopTestState
          { isLoaded := true, positionMillis := 5000, isPlaying := true }).1
        { isLoaded := true, positionMillis := 5000, isPlaying := true } =
      handleVideoStatusUpdate loopTestConfig loopTestState
        { isLoaded := true, positionMillis := 5000, isPlaying := true } :=
  handleVideoStatusUpdate_idempotent loopTestConfig loopTestState
    { isLoaded := true, positionMillis := 5000, isPlaying := true } rfl

/-- C9 (confirmed): `validateTimeRange` returns true exactly when
`startTime < endTime`, `startTime ≥ 0` and `endTime > 0`; in particular it
accepts the 500 ms range `[0, 500]`, which the stage-transition validation
`handleProceedToPlayer` rejects — the utility enforces no 1-second minimum
gap. -/
theorem validateTimeRange_spec (s e : ℚ) :
    (validateTimeRange s e = true ↔ s < e ∧ 0 ≤ s ∧ 0 < e) ∧
      validateTimeRange 0 500 = true ∧
      (500 : ℚ) - 0 < 1000 ∧
      (handleProceedToPlayer true 0 500 10000).failed = true := by
  refine ⟨?_, by decide, by norm_num, ?_⟩
  · simp [validateTimeRange, and_assoc]
  · norm_num [handleProceedToPlayer, ProceedOutcome.failed]

/-- C10 (confirmed): for a positive duration the trim screen initializes the
range to `[0, min(duration, 30000)]`, and `getSuggestedTrimPoints` returns
`startTime = 0` and `endTime = min(videoDuration, 30000)` for every
duration. -/
theorem suggested_trim_points_spec (d : ℚ) :
    (0 < d →
        (trimmerInitialState d).startTime = 0 ∧
          (trimmerInitialState d).endTime = min d 30000) ∧
      (getSuggestedTrimPoints d).startTime = 0 ∧
      (getSuggestedTrimPoints d).endTime = min d 30000 := by
  refine ⟨fun hd => ?_, rfl, rfl⟩
  have hne : d ≠ 0 := ne_of_gt hd
  simp [trimmerInitialState, hne]

/-- C10 witness: a 45-second video gets the capped initial range
`[0, 30000]`. -/
theorem suggested_trim_points_spec_witness :
    (trimmerInitialState 45000).startTime = 0 ∧
      (trimmerInitialState 45000).endTime = min 45000 30000 :=
  (suggested_trim_points_spec 45000).1 (by decide)

end VideoTrimmerApp
